import Mathlib

/-!
Verification development for the session/layout persistence and multi-pane
view-management core of the llm-god desktop shell.

The definitions below are a shallow embedding of the TypeScript source:
  * src/src/main.ts   — session store, session controller, provider registry
  * src/src/utilities.ts — pane (browser view) open/close operations

JavaScript objects of type Record<string, T> are modelled as association
lists with unique keys preserved by `recSet` (replace-in-place or append,
matching JS property-assignment semantics).  JS string truthiness is
nonemptiness.  Machine integers do not occur in the modelled fragment;
timestamps are passed in as plain naturals.
-/

set_option autoImplicit false

universe u

/-- Lookup of a JS object property: first (and by construction only) entry
with the given key. -/
def recGet {α : Type u} (r : List (String × α)) (k : String) : Option α :=
  (r.find? (fun p => p.1 == k)).map (fun p => p.2)

/-- JS property assignment `r[k] = v`: replaces the value at an existing key
in place, otherwise appends the new pair at the end (JS insertion order). -/
def recSet {α : Type u} (r : List (String × α)) (k : String) (v : α) : List (String × α) :=
  if r.any (fun p => p.1 == k) then
    r.map (fun p => if p.1 == k then (k, v) else p)
  else
    r ++ [(k, v)]

/-- JS `delete r[k]`. -/
def recDel {α : Type u} (r : List (String × α)) (k : String) : List (String × α) :=
  r.filter (fun p => !(p.1 == k))

/-- JS `o || d` for an optionally-present string property: the property value
when present and truthy (non-empty), otherwise the default. -/
def jsOrStr (o : Option String) (d : String) : String :=
  match o with
  | some s => if 0 < s.length then s else d
  | none => d

/-- TabState from main.ts: one saved pane within a session layout. -/
structure TabState where
  provider : String
  url : String
  zoom : Option Nat
deriving DecidableEq, Repr

/-- SessionMeta from main.ts: catalog metadata of one saved session. -/
structure SessionMeta where
  id : String
  title : String
  pinned : Bool
  createdAt : Nat
  updatedAt : Nat
deriving DecidableEq, Repr

/-- A session layout: saved tabs plus the per-provider last-known-URL map
(`lastUrlByProvider`); an absent map in the source is the empty list here. -/
structure SessionLayout where
  tabs : List TabState
  lastUrlByProvider : List (String × String)
deriving DecidableEq, Repr

/-- SessionState from main.ts: the root persisted document. -/
structure SessionState where
  activeId : Option String
  order : List String
  pinned : List String
  items : List (String × SessionMeta)
  layouts : List (String × SessionLayout)
deriving DecidableEq, Repr

/-- A live pane (a CustomBrowserView): `id` is the URL string assigned at
creation time, `url` is what `webContents.getURL()` currently reports
(empty until the first load completes). -/
structure Pane where
  id : String
  url : String
deriving DecidableEq, Repr

/-- Unanchored regular-expression test of a literal pattern: substring
containment. -/
def strContains (s pat : String) : Bool :=
  s.toList.tails.any (fun t => pat.toList.isPrefixOf t)

/-- Characters allowed in a URL scheme after the first letter. -/
def isSchemeChar (c : Char) : Bool :=
  c.isAlpha || c.isDigit || c == '+' || c == '-' || c == '.'

/-- The WHATWG special schemes relevant here (whose authority must be
non-empty, except file). -/
def specialSchemes : List String := ["http", "https", "ws", "wss", "ftp", "file"]

/-- The part of an authority after the last `@` (strips userinfo). -/
def afterLastAt (l : List Char) : List Char :=
  (l.reverse.takeWhile (fun c => c != '@')).reverse

/-- Leading/trailing whitespace removal on a character list (the URL
constructor strips surrounding C0-control/space characters). -/
def trimChars (l : List Char) : List Char :=
  ((l.dropWhile Char.isWhitespace).reverse.dropWhile Char.isWhitespace).reverse

/-- Model of `new URL(url).hostname` for the hierarchical `scheme://…` forms
this application uses: `some host` when parsing succeeds (empty for URLs
with an opaque path), `none` when the constructor would throw.  Special
schemes without `//` are not modelled; no theorem below depends on them. -/
def parseHostname (url : String) : Option String :=
  let cs := trimChars url.toList
  let scheme := cs.takeWhile isSchemeChar
  let rest := cs.drop scheme.length
  match scheme.head? with
  | none => none
  | some c0 =>
    if !c0.isAlpha then none
    else
      match rest with
      | ':' :: r =>
        let schemeStr := String.mk (scheme.map Char.toLower)
        match r with
        | '/' :: '/' :: r2 =>
          let auth := r2.takeWhile (fun ch => ch != '/' && ch != '?' && ch != '#')
          let hostPort := afterLastAt auth
          let host := hostPort.takeWhile (fun ch => ch != ':')
          if specialSchemes.contains schemeStr && host.isEmpty && schemeStr != "file" then
            none
          else
            some (String.mk (host.map Char.toLower))
        | _ => some ""
      | _ => none

/-- inferProviderFromUrl from main.ts (lines 254-268): tests the ordered host
patterns, returns the first match's canonical id, otherwise the bare
hostname, and the raw string when URL parsing fails. -/
def inferProviderFromUrl (url : String) : String :=
  match parseHostname url with
  | none => url
  | some host =>
    if strContains host "chatgpt.com" || strContains host "chat.openai.com" then "chatgpt"
    else if strContains host "gemini.google.com" then "gemini"
    else if strContains host "perplexity.ai" then "perplexity"
    else if strContains host "claude.ai" then "claude"
    else if strContains host "grok.com" then "grok"
    else if strContains host "deepseek.com" then "deepseek"
    else host

/-- PROVIDER_BASE_URL from main.ts (lines 270-277). -/
def PROVIDER_BASE_URL : List (String × String) :=
  [ ("chatgpt", "https://chatgpt.com/"),
    ("gemini", "https://gemini.google.com/"),
    ("perplexity", "https://www.perplexity.ai/"),
    ("claude", "https://claude.ai/chats/"),
    ("grok", "https://grok.com/"),
    ("deepseek", "https://chat.deepseek.com/") ]

/-- The URL a pane reports to `getCurrentTabsSnapshot`:
`view.webContents.getURL() || view.id`. -/
def paneReportedUrl (v : Pane) : String :=
  if 0 < v.url.length then v.url else v.id

/-- getCurrentTabsSnapshot from main.ts (lines 279-289): derives
provider/url/zoom for every live pane, in pane order. -/
def getCurrentTabsSnapshot (panes : List Pane) : List TabState :=
  panes.map (fun v =>
    let url := paneReportedUrl v
    { provider := inferProviderFromUrl url, url := url, zoom := some 1 })

/-- URL resolution for one saved tab inside restoreLayout (main.ts
lines 364-370): prefer a non-empty `lastUrlByProvider` entry, then a
non-empty saved tab URL, then the registered base URL, then the raw tab
URL. -/
def resolveRestoreUrl (tab : TabState) (lastUrlByProvider : List (String × String)) : String :=
  match recGet lastUrlByProvider tab.provider with
  | some l =>
    if 0 < l.length then l
    else if 0 < tab.url.length then tab.url
    else jsOrStr (recGet PROVIDER_BASE_URL tab.provider) tab.url
  | none =>
    if 0 < tab.url.length then tab.url
    else jsOrStr (recGet PROVIDER_BASE_URL tab.provider) tab.url

/-- The pane list produced by restoreLayout (main.ts lines 353-378): all old
panes are closed, then one fresh pane per saved tab is created via
addBrowserView at the resolved URL, in saved order.  A fresh pane's id is
the loaded URL and `getURL()` is still empty. -/
def restoreLayoutPanes (tabs : List TabState) (lastUrlByProvider : List (String × String)) : List Pane :=
  tabs.map (fun tab =>
    let url := resolveRestoreUrl tab lastUrlByProvider
    { id := url, url := "" })

/-- `new Map(prevTabs.map(t => [t.provider, t]))` lookup: the LAST entry with
the given provider wins, as in the JS Map constructor. -/
def lookupLastTab (tabs : List TabState) (p : String) : Option TabState :=
  tabs.reverse.find? (fun t => t.provider == p)

/-- The `lastUrlByProvider` update loop of saveActiveLayoutSnapshot (main.ts
lines 312-315): for each current tab with a truthy provider, record its
current URL. -/
def updateLastUrls (init : List (String × String)) (current : List TabState) : List (String × String) :=
  current.foldl (fun acc t => if t.provider ≠ "" then recSet acc t.provider t.url else acc) init

/-- The merged tab written by saveActiveLayoutSnapshot for one current tab
(main.ts lines 302-309): keep the previously saved URL/zoom for a provider
that already existed, otherwise base URL (falling back to the live URL). -/
def mergedTab (prevTabs : List TabState) (t : TabState) : TabState :=
  match lookupLastTab prevTabs t.provider with
  | some prev => { provider := t.provider, url := prev.url,
                   zoom := match prev.zoom with | some z => some z | none => t.zoom }
  | none => { provider := t.provider,
              url := jsOrStr (recGet PROVIDER_BASE_URL t.provider) t.url,
              zoom := t.zoom }

/-- saveActiveLayoutSnapshot from main.ts (lines 292-325): no-op without an
active session; otherwise merge the live snapshot against the saved tabs by
provider identity, refresh `lastUrlByProvider` from the live URLs, and bump
the active session's `updatedAt` to the current time. -/
def saveActiveLayoutSnapshot (state : SessionState) (panes : List Pane) (now : Nat) : SessionState :=
  match state.activeId with
  | none => state
  | some aid =>
    let current := getCurrentTabsSnapshot panes
    let layout := (recGet state.layouts aid).getD { tabs := [], lastUrlByProvider := [] }
    let nextTabs := current.map (mergedTab layout.tabs)
    let last := updateLastUrls layout.lastUrlByProvider current
    let layouts := recSet state.layouts aid { tabs := nextTabs, lastUrlByProvider := last }
    let items :=
      match recGet state.items aid with
      | some m => recSet state.items aid { m with updatedAt := now }
      | none => state.items
    { state with layouts := layouts, items := items }

/-- The sessions:open IPC handler (main.ts lines 937-947): throws if no
layout is stored for the id; otherwise marks the session active, persists,
and returns the saved tabs and `lastUrlByProvider` that are handed to
restoreLayout. -/
def openSession (state : SessionState) (id : String) :
    Except String (SessionState × List TabState × List (String × String)) :=
  match recGet state.layouts id with
  | none => Except.error "No layout saved for session"
  | some layout =>
    Except.ok ({ state with activeId := some id }, layout.tabs, layout.lastUrlByProvider)

/-- The session-store document after the sessions:open handler runs: the
handler throws before any mutation of the persisted state, so a failed open
leaves the stored document untouched. -/
def persistedAfterOpenSession (state : SessionState) (id : String) : SessionState :=
  match openSession state id with
  | Except.ok (st, _, _) => st
  | Except.error _ => state

/-- JS `String.prototype.trim`. -/
def jsTrimStr (s : String) : String := String.mk (trimChars s.toList)

/-- The sessions:rename IPC handler (main.ts lines 949-957): throws for an
unknown id; otherwise takes the trimmed title unless it is empty (keeping
the prior title), and bumps `updatedAt`. -/
def renameSession (state : SessionState) (id : String) (title : String) (now : Nat) :
    Except String SessionState :=
  match recGet state.items id with
  | none => Except.error "Unknown session id"
  | some meta =>
    let t := jsTrimStr title
    let newTitle := if 0 < t.length then t else meta.title
    Except.ok { state with
      items := recSet state.items id { meta with title := newTitle, updatedAt := now } }

/-- The sessions:delete IPC handler (main.ts lines 959-968): removes the id
from items, layouts, order and pinned, and clears activeId when it pointed
at the deleted session. -/
def deleteSession (state : SessionState) (id : String) : SessionState :=
  { activeId := if state.activeId == some id then none else state.activeId,
    order := state.order.filter (fun x => !(x == id)),
    pinned := state.pinned.filter (fun x => !(x == id)),
    items := recDel state.items id,
    layouts := recDel state.layouts id }

/-- `replace(/\s+/g, " ")`: collapse every whitespace run to one space.  The
flag records whether the previous character was part of a run. -/
def collapseGo : Bool → List Char → List Char
  | _, [] => []
  | prevWs, c :: rest =>
    if c.isWhitespace then
      (if prevWs then [] else [' ']) ++ collapseGo true rest
    else
      c :: collapseGo false rest

/-- `(seed ?? "").trim().replace(/\s+/g, " ")` from createNewSession
(main.ts line 835). -/
def cleanTitleSeed (seed : String) : String :=
  String.mk (collapseGo false (trimChars seed.toList))

/-- The timestamp fallback title of createNewSession:
`Session <formatted timestamp>`. -/
def defaultSessionTitle (formattedNow : String) : String :=
  "Session " ++ formattedNow

/-- JS `s.slice(0, n)`: the first `n` characters. -/
def jsSlice (s : String) (n : Nat) : String := String.mk (s.toList.take n)

/-- Title derivation of createNewSession (main.ts lines 835-839): the
cleaned seed truncated to its first 80 characters, or the timestamp
fallback when the cleaned seed is empty. -/
def deriveSessionTitle (seed : Option String) (formattedNow : String) : String :=
  let clean := cleanTitleSeed (seed.getD "")
  if 0 < clean.length then jsSlice clean 80 else defaultSessionTitle formattedNow

/-- The live pane-manager state of utilities.ts: the `websites` URL list and
the `views` list, plus a counter handing out object identities for freshly
constructed views. -/
structure PaneState where
  websites : List String
  views : List (Nat × Pane)
  nextRef : Nat
deriving DecidableEq, Repr

/-- addBrowserView from utilities.ts (lines 104-155): constructs a fresh
view whose id is the URL (not yet loaded), appends the URL to `websites`
and the view to `views`. -/
def addBrowserView (s : PaneState) (url : String) : PaneState :=
  { websites := s.websites ++ [url],
    views := s.views ++ [(s.nextRef, { id := url, url := "" })],
    nextRef := s.nextRef + 1 }

/-- removeBrowserView from utilities.ts (lines 157-192): a no-op when the
target view object is not tracked; otherwise removes the view and the first
matching `websites` entry. -/
def removeBrowserView (s : PaneState) (target : Nat × Pane) : PaneState :=
  if target ∈ s.views then
    { websites := s.websites.erase target.2.id,
      views := s.views.erase target,
      nextRef := s.nextRef }
  else s

/-- A pane-manager operation: opening a URL or closing a given view
object. -/
inductive PaneOp where
  | openPane (url : String)
  | closePane (target : Nat × Pane)
deriving DecidableEq, Repr

/-- Run a sequence of pane operations. -/
def runPaneOps (s : PaneState) : List PaneOp → PaneState
  | [] => s
  | PaneOp.openPane url :: rest => runPaneOps (addBrowserView s url) rest
  | PaneOp.closePane t :: rest => runPaneOps (removeBrowserView s t) rest

/-- Number of open operations in a sequence. -/
def countOpens : List PaneOp → Nat
  | [] => 0
  | PaneOp.openPane _ :: rest => countOpens rest + 1
  | PaneOp.closePane _ :: rest => countOpens rest

/-- Number of close operations whose target was tracked at the moment of the
close. -/
def countEffectiveCloses (s : PaneState) : List PaneOp → Nat
  | [] => 0
  | PaneOp.openPane url :: rest => countEffectiveCloses (addBrowserView s url) rest
  | PaneOp.closePane t :: rest =>
    (if t ∈ s.views then 1 else 0) + countEffectiveCloses (removeBrowserView s t) rest

/-- Sample persisted state with one saved session. -/
def sampleMeta : SessionMeta :=
  { id := "s1", title := "First", pinned := false, createdAt := 1, updatedAt := 1 }

def sampleLayout : SessionLayout :=
  { tabs := [{ provider := "chatgpt", url := "https://chatgpt.com/", zoom := some 1 }],
    lastUrlByProvider := [("chatgpt", "https://chatgpt.com/c/abc")] }

def sampleState : SessionState :=
  { activeId := some "s1", order := ["s1"], pinned := [],
    items := [("s1", sampleMeta)], layouts := [("s1", sampleLayout)] }

/-- Sample persisted state with two saved sessions, the first active. -/
def sampleMeta2 : SessionMeta :=
  { id := "s2", title := "Second", pinned := true, createdAt := 2, updatedAt := 2 }

def sampleState2 : SessionState :=
  { activeId := some "s1", order := ["s1"], pinned := ["s2"],
    items := [("s1", sampleMeta), ("s2", sampleMeta2)],
    layouts := [("s1", sampleLayout), ("s2", { tabs := [], lastUrlByProvider := [] })] }

/-- A 120-character seed and its 80-character truncation. -/
def seed120 : String := String.mk (List.replicate 120 'a')

def seed80 : String := String.mk (List.replicate 80 'a')

/-- A small concrete pane history: two opens, one effective close, one
no-op close. -/
def paneS0 : PaneState := { websites := [], views := [], nextRef := 0 }

def paneOps0 : List PaneOp :=
  [ PaneOp.openPane "https://chatgpt.com/",
    PaneOp.openPane "https://claude.ai/chats/",
    PaneOp.closePane (0, { id := "https://chatgpt.com/", url := "" }),
    PaneOp.closePane (9, { id := "https://grok.com/", url := "" }) ]

/-- The current URL of the last live pane (in snapshot order) whose provider
is `p`. -/
def lastCurrentUrl : List TabState → String → Option String
  | [], _ => none
  | t :: rest, p =>
    match lastCurrentUrl rest p with
    | some u => some u
    | none => if t.provider = p then some t.url else none

/-- Two live chatgpt panes whose current URLs differ. -/
def dupPanes : List Pane :=
  [ { id := "https://chatgpt.com/", url := "https://chatgpt.com/c/1" },
    { id := "https://chatgpt.com/", url := "https://chatgpt.com/c/2" } ]

/-- A live pane that has never navigated and carries an empty id, whose
snapshot provider is the empty string. -/
def emptyPanes : List Pane := [{ id := "", url := "" }]

/-- A claude pane (absent from the previously saved chatgpt-only tab list)
currently navigated deep into a conversation. -/
def claudePanes : List Pane :=
  [ { id := "https://claude.ai/chats/", url := "https://claude.ai/chat/42" } ]

/-- The provider sequence the snapshot derives from a pane list (left to
right). -/
def paneProviders (panes : List Pane) : List String :=
  (getCurrentTabsSnapshot panes).map (fun t => t.provider)

/-- A saved tab whose provider key does not match its URL, together with a
lastUrlByProvider map whose claude entry points at a grok URL: legal inputs
under the claim's unrestricted quantification. -/
def mismatchTabs : List TabState :=
  [{ provider := "x", url := "https://claude.ai/", zoom := none }]

def mismatchLast : List (String × String) := [("claude", "https://grok.com/")]

def roundtripTabs : List TabState :=
  [ { provider := "chatgpt", url := "https://chatgpt.com/c/old", zoom := some 1 },
    { provider := "gemini", url := "", zoom := none } ]

def roundtripLast : List (String × String) := [("chatgpt", "https://chatgpt.com/c/9")]

theorem recGet_nil {α : Type u} (k : String) : recGet ([] : List (String × α)) k = none := rfl

theorem recGet_cons {α : Type u} (p : String × α) (r : List (String × α)) (k : String) :
    recGet (p :: r) k = if p.1 = k then some p.2 else recGet r k := by
  by_cases hp : p.1 = k
  · rw [recGet, List.find?_cons_of_pos _ (by simpa using hp), if_pos hp]
    rfl
  · rw [recGet, List.find?_cons_of_neg _ (by simpa using hp), if_neg hp]
    rfl

theorem recGet_isSome_eq_any {α : Type u} (r : List (String × α)) (k : String) :
    (recGet r k).isSome = r.any (fun p => p.1 == k) := by
  induction r with
  | nil => rfl
  | cons p r ih =>
    rw [recGet_cons]
    by_cases hp : p.1 = k
    · simp [hp]
    · simp [hp, ih]

theorem recGet_map_replace_self {α : Type u} (r : List (String × α)) (k : String) (v : α)
    (hany : r.any (fun p => p.1 == k) = true) :
    recGet (r.map (fun p => if p.1 == k then (k, v) else p)) k = some v := by
  induction r with
  | nil => simp at hany
  | cons p r ih =>
    by_cases hp : p.1 = k
    · have hrepl : (if (p.1 == k) = true then (k, v) else p) = (k, v) := by simp [hp]
      rw [List.map_cons, hrepl, recGet_cons]
      simp
    · have hrepl : (if (p.1 == k) = true then (k, v) else p) = p := by simp [hp]
      have hany' : r.any (fun p => p.1 == k) = true := by
        simp only [List.any_cons, Bool.or_eq_true] at hany
        rcases hany with h1 | h1
        · exact absurd (by simpa using h1) hp
        · exact h1
      rw [List.map_cons, hrepl, recGet_cons, if_neg hp]
      exact ih hany'

theorem recGet_map_replace_ne {α : Type u} (r : List (String × α)) (k k' : String) (v : α)
    (h : k' ≠ k) :
    recGet (r.map (fun p => if p.1 == k then (k, v) else p)) k' = recGet r k' := by
  induction r with
  | nil => rfl
  | cons p r ih =>
    by_cases hp : p.1 = k
    · have hrepl : (if (p.1 == k) = true then (k, v) else p) = (k, v) := by simp [hp]
      have h1 : ¬ (k : String) = k' := fun hk => h hk.symm
      have h2 : ¬ p.1 = k' := by
        rw [hp]
        exact h1
      rw [List.map_cons, hrepl, recGet_cons, recGet_cons, if_neg h1, if_neg h2, ih]
    · have hrepl : (if (p.1 == k) = true then (k, v) else p) = p := by simp [hp]
      rw [List.map_cons, hrepl, recGet_cons, recGet_cons, ih]

theorem recGet_append_ne {α : Type u} (r : List (String × α)) (k k' : String) (v : α)
    (h : k' ≠ k) : recGet (r ++ [(k, v)]) k' = recGet r k' := by
  induction r with
  | nil =>
    have h1 : ¬ (k : String) = k' := fun hk => h hk.symm
    rw [List.nil_append, recGet_cons, if_neg h1]
  | cons p r ih =>
    rw [List.cons_append, recGet_cons, recGet_cons, ih]

theorem recGet_append_self {α : Type u} (r : List (String × α)) (k : String) (v : α)
    (h : recGet r k = none) : recGet (r ++ [(k, v)]) k = some v := by
  induction r with
  | nil =>
    rw [List.nil_append, recGet_cons, if_pos rfl]
  | cons p r ih =>
    rw [recGet_cons] at h
    by_cases hp : p.1 = k
    · rw [if_pos hp] at h
      exact absurd h (by simp)
    · rw [if_neg hp] at h
      rw [List.cons_append, recGet_cons, if_neg hp]
      exact ih h

theorem recGet_recSet_self {α : Type u} (r : List (String × α)) (k : String) (v : α) :
    recGet (recSet r k v) k = some v := by
  unfold recSet
  by_cases hany : r.any (fun p => p.1 == k) = true
  · rw [if_pos hany]
    exact recGet_map_replace_self r k v hany
  · rw [if_neg hany]
    refine recGet_append_self r k v ?_
    cases hr : recGet r k with
    | none => rfl
    | some w =>
      have := recGet_isSome_eq_any r k
      rw [hr] at this
      exact absurd this.symm hany

theorem recGet_recSet_ne {α : Type u} (r : List (String × α)) (k k' : String) (v : α)
    (h : k' ≠ k) : recGet (recSet r k v) k' = recGet r k' := by
  unfold recSet
  by_cases hany : r.any (fun p => p.1 == k) = true
  · rw [if_pos hany]
    exact recGet_map_replace_ne r k k' v h
  · rw [if_neg hany]
    exact recGet_append_ne r k k' v h

theorem recDel_cons {α : Type u} (p : String × α) (r : List (String × α)) (k : String) :
    recDel (p :: r) k = if p.1 = k then recDel r k else p :: recDel r k := by
  by_cases hp : p.1 = k
  · simp [recDel, hp]
  · simp [recDel, hp]

theorem recGet_recDel_self {α : Type u} (r : List (String × α)) (k : String) :
    recGet (recDel r k) k = none := by
  induction r with
  | nil => rfl
  | cons p r ih =>
    rw [recDel_cons]
    by_cases hp : p.1 = k
    · rw [if_pos hp]
      exact ih
    · rw [if_neg hp, recGet_cons, if_neg hp]
      exact ih

theorem recGet_recDel_ne {α : Type u} (r : List (String × α)) (k k' : String)
    (h : k' ≠ k) : recGet (recDel r k) k' = recGet r k' := by
  induction r with
  | nil => rfl
  | cons p r ih =>
    rw [recDel_cons]
    by_cases hp : p.1 = k
    · have hp' : ¬ p.1 = k' := by
        rw [hp]
        exact fun hk => h hk.symm
      rw [if_pos hp, recGet_cons, if_neg hp']
      exact ih
    · rw [if_neg hp, recGet_cons, recGet_cons, ih]

theorem recGet_mem {α : Type u} {r : List (String × α)} {k : String} {v : α}
    (h : recGet r k = some v) : (k, v) ∈ r := by
  induction r with
  | nil => simp [recGet] at h
  | cons p r ih =>
    rw [recGet_cons] at h
    by_cases hp : p.1 = k
    · rw [if_pos hp] at h
      have hv : p.2 = v := by simpa using h
      have hkv : (k, v) = p := by
        cases p
        simp_all
      simp [hkv]
    · rw [if_neg hp] at h
      exact List.mem_cons_of_mem _ (ih h)

theorem string_eq_empty_iff_length (s : String) : s = "" ↔ s.length = 0 := by
  cases s with
  | mk data =>
    constructor
    · intro h
      rw [h]
      rfl
    · intro h
      have hd : data = [] := List.length_eq_zero.mp h
      simp [hd]

/-- Claim C4: opening a session by id fails exactly when no layout is stored
for that id; a failed open leaves the persisted state untouched; a
successful open sets activeId to the requested id, leaves every other
collection unchanged, persists that state, and hands the saved tabs and
lastUrlByProvider to restoreLayout. -/
theorem c4_open_session (state : SessionState) (id : String) :
    ((∃ e, openSession state id = Except.error e) ↔ recGet state.layouts id = none)
    ∧ (recGet state.layouts id = none → persistedAfterOpenSession state id = state)
    ∧ (∀ L, recGet state.layouts id = some L →
        ∃ st, openSession state id = Except.ok (st, L.tabs, L.lastUrlByProvider)
          ∧ st.activeId = some id
          ∧ st.order = state.order
          ∧ st.pinned = state.pinned
          ∧ st.items = state.items
          ∧ st.layouts = state.layouts
          ∧ persistedAfterOpenSession state id = st) := by
  refine ⟨⟨?_, ?_⟩, ?_, ?_⟩
  · rintro ⟨e, he⟩
    cases hL : recGet state.layouts id with
    | none => rfl
    | some L =>
      rw [openSession, hL] at he
      cases he
  · intro hL
    exact ⟨"No layout saved for session", by rw [openSession, hL]⟩
  · intro hL
    rw [persistedAfterOpenSession, openSession, hL]
  · intro L hL
    refine ⟨{ state with activeId := some id }, ?_, rfl, rfl, rfl, rfl, rfl, ?_⟩
    · rw [openSession, hL]
    · rw [persistedAfterOpenSession, openSession, hL]

theorem c4_open_session_witness :
    persistedAfterOpenSession sampleState "missing" = sampleState
    ∧ (∃ st, openSession sampleState "s1"
          = Except.ok (st, sampleLayout.tabs, sampleLayout.lastUrlByProvider)
        ∧ st.activeId = some "s1") := by
  constructor
  · exact (c4_open_session sampleState "missing").2.1 (by decide)
  · obtain ⟨st, hok, hact, -, -, -, -, -⟩ :=
      (c4_open_session sampleState "s1").2.2 sampleLayout (by decide)
    exact ⟨st, hok, hact⟩

/-- Claim C5: deleting a session id removes it from items, layouts, order
and pinned; activeId becomes null exactly when it pointed at the deleted
id (otherwise it is unchanged); other sessions' entries in all four
collections are untouched. -/
theorem c5_delete_session (state : SessionState) (id : String) :
    recGet (deleteSession state id).items id = none
    ∧ recGet (deleteSession state id).layouts id = none
    ∧ id ∉ (deleteSession state id).order
    ∧ id ∉ (deleteSession state id).pinned
    ∧ (deleteSession state id).activeId
        = (if state.activeId = some id then none else state.activeId)
    ∧ (∀ j, j ≠ id →
        recGet (deleteSession state id).items j = recGet state.items j
        ∧ recGet (deleteSession state id).layouts j = recGet state.layouts j
        ∧ (j ∈ (deleteSession state id).order ↔ j ∈ state.order)
        ∧ (j ∈ (deleteSession state id).pinned ↔ j ∈ state.pinned)) := by
  refine ⟨recGet_recDel_self _ _, recGet_recDel_self _ _, ?_, ?_, ?_, ?_⟩
  · simp [deleteSession, List.mem_filter]
  · simp [deleteSession, List.mem_filter]
  · by_cases h : state.activeId = some id
    · simp [deleteSession, h]
    · simp [deleteSession, h]
  · intro j hj
    refine ⟨recGet_recDel_ne _ _ _ hj, recGet_recDel_ne _ _ _ hj, ?_, ?_⟩
    · simp [deleteSession, List.mem_filter, hj]
    · simp [deleteSession, List.mem_filter, hj]

theorem c5_delete_session_witness :
    recGet (deleteSession sampleState2 "s1").items "s1" = none
    ∧ recGet (deleteSession sampleState2 "s1").items "s2" = recGet sampleState2.items "s2"
    ∧ ("s2" ∈ (deleteSession sampleState2 "s1").pinned ↔ "s2" ∈ sampleState2.pinned) := by
  obtain ⟨hitems, -, -, -, -, hframe⟩ := c5_delete_session sampleState2 "s1"
  obtain ⟨hj1, -, -, hj4⟩ := hframe "s2" (by decide)
  exact ⟨hitems, hj1, hj4⟩

/-- Claim C9: renaming fails exactly for an unknown id; for a known id an
empty trimmed title keeps the prior title while a non-empty trimmed title
replaces it; in both non-failing cases updatedAt becomes the save time,
and no other session's metadata or any other collection changes. -/
theorem c9_rename_session (state : SessionState) (id title : String) (now : Nat) :
    ((∃ e, renameSession state id title now = Except.error e) ↔ recGet state.items id = none)
    ∧ (∀ m, recGet state.items id = some m →
        ∃ st, renameSession state id title now = Except.ok st
          ∧ (jsTrimStr title = "" →
              recGet st.items id = some { m with updatedAt := now })
          ∧ (jsTrimStr title ≠ "" →
              recGet st.items id = some { m with title := jsTrimStr title, updatedAt := now })
          ∧ (∀ j, j ≠ id → recGet st.items j = recGet state.items j)
          ∧ st.activeId = state.activeId
          ∧ st.order = state.order
          ∧ st.pinned = state.pinned
          ∧ st.layouts = state.layouts) := by
  constructor
  · constructor
    · rintro ⟨e, he⟩
      cases hm : recGet state.items id with
      | none => rfl
      | some m =>
        rw [renameSession, hm] at he
        cases he
    · intro hm
      exact ⟨"Unknown session id", by rw [renameSession, hm]⟩
  · intro m hm
    refine
      ⟨{ state with
           items := recSet state.items id
                      { m with
                          title := if 0 < (jsTrimStr title).length then jsTrimStr title
                                   else m.title,
                          updatedAt := now } },
       ?_, ?_, ?_, ?_, rfl, rfl, rfl, rfl⟩
    · rw [renameSession, hm]
    · intro hempty
      have hlen : (jsTrimStr title).length = 0 := (string_eq_empty_iff_length _).mp hempty
      have hnot : ¬ 0 < (jsTrimStr title).length := by omega
      simp only [if_neg hnot]
      exact recGet_recSet_self _ _ _
    · intro hne
      have hlen : (jsTrimStr title).length ≠ 0 := fun h =>
        hne ((string_eq_empty_iff_length _).mpr h)
      have hpos : 0 < (jsTrimStr title).length := Nat.pos_of_ne_zero hlen
      simp only [if_pos hpos]
      exact recGet_recSet_self _ _ _
    · intro j hj
      exact recGet_recSet_ne _ _ _ _ hj

theorem c9_rename_session_witness :
    (∃ st, renameSession sampleState "s1" "  New   Title " 7 = Except.ok st
      ∧ recGet st.items "s1" = some { sampleMeta with title := "New   Title", updatedAt := 7 })
    ∧ (∃ st, renameSession sampleState "s1" "   " 9 = Except.ok st
      ∧ recGet st.items "s1" = some { sampleMeta with updatedAt := 9 }) := by
  constructor
  · obtain ⟨st, hok, -, hne, -, -⟩ :=
      (c9_rename_session sampleState "s1" "  New   Title " 7).2 sampleMeta (by decide)
    refine ⟨st, hok, ?_⟩
    have : jsTrimStr "  New   Title " = "New   Title" := by decide
    have h := hne (by decide)
    rw [this] at h
    exact h
  · obtain ⟨st, hok, hempty, -, -, -⟩ :=
      (c9_rename_session sampleState "s1" "   " 9).2 sampleMeta (by decide)
    exact ⟨st, hok, hempty (by decide)⟩

theorem provider_base_url_nonempty (p b : String)
    (h : recGet PROVIDER_BASE_URL p = some b) : 0 < b.length := by
  have hm := recGet_mem h
  simp only [PROVIDER_BASE_URL, List.mem_cons, List.mem_singleton, Prod.mk.injEq,
    List.not_mem_nil, or_false] at hm
  rcases hm with ⟨-, rfl⟩ | ⟨-, rfl⟩ | ⟨-, rfl⟩ | ⟨-, rfl⟩ | ⟨-, rfl⟩ | ⟨-, rfl⟩ <;> decide

/-- Claim C1: restoreLayout resolves each saved tab's pane URL with the
precedence non-empty lastUrlByProvider entry, then non-empty saved tab URL,
then registered base URL, then the raw tab URL; the recreated panes load
exactly those resolved URLs in saved order; and in particular a
lastUrlByProvider entry beats the tab's own URL. -/
theorem c1_restore_url_precedence (tab : TabState) (tabs : List TabState)
    (last : List (String × String)) :
    (∀ l, recGet last tab.provider = some l → 0 < l.length →
        resolveRestoreUrl tab last = l)
    ∧ ((recGet last tab.provider = none ∨ recGet last tab.provider = some "") →
        0 < tab.url.length → resolveRestoreUrl tab last = tab.url)
    ∧ ((recGet last tab.provider = none ∨ recGet last tab.provider = some "") →
        tab.url = "" → ∀ b, recGet PROVIDER_BASE_URL tab.provider = some b →
        resolveRestoreUrl tab last = b)
    ∧ ((recGet last tab.provider = none ∨ recGet last tab.provider = some "") →
        tab.url = "" → recGet PROVIDER_BASE_URL tab.provider = none →
        resolveRestoreUrl tab last = tab.url)
    ∧ (restoreLayoutPanes tabs last).map Pane.id
        = tabs.map (fun t => resolveRestoreUrl t last)
    ∧ resolveRestoreUrl
        { provider := "chatgpt", url := "https://chatgpt.com/c/old", zoom := some 1 }
        [("chatgpt", "https://chatgpt.com/c/new")] = "https://chatgpt.com/c/new" := by
  refine ⟨?_, ?_, ?_, ?_, ?_, by decide⟩
  · intro l hl hpos
    rw [resolveRestoreUrl, hl]
    simp [hpos]
  · intro hmiss hurl
    rcases hmiss with hmiss | hmiss
    · rw [resolveRestoreUrl, hmiss]
      simp [hurl]
    · rw [resolveRestoreUrl, hmiss]
      simp [hurl]
  · intro hmiss hurl b hb
    have hbpos : 0 < b.length := provider_base_url_nonempty _ _ hb
    rcases hmiss with hmiss | hmiss
    · rw [resolveRestoreUrl, hmiss]
      simp [hurl, jsOrStr, hb, hbpos]
    · rw [resolveRestoreUrl, hmiss]
      simp [hurl, jsOrStr, hb, hbpos]
  · intro hmiss hurl hbase
    rcases hmiss with hmiss | hmiss
    · rw [resolveRestoreUrl, hmiss]
      simp [hurl, jsOrStr, hbase]
    · rw [resolveRestoreUrl, hmiss]
      simp [hurl, jsOrStr, hbase]
  · simp [restoreLayoutPanes, List.map_map]

theorem c1_restore_url_precedence_witness :
    resolveRestoreUrl
        { provider := "chatgpt", url := "https://chatgpt.com/c/old", zoom := some 1 }
        [("chatgpt", "https://chatgpt.com/c/new")] = "https://chatgpt.com/c/new"
    ∧ resolveRestoreUrl { provider := "claude", url := "https://claude.ai/chat/7", zoom := none } []
        = "https://claude.ai/chat/7"
    ∧ resolveRestoreUrl { provider := "gemini", url := "", zoom := none } []
        = "https://gemini.google.com/"
    ∧ resolveRestoreUrl { provider := "zzz", url := "", zoom := none } [] = "" := by
  refine ⟨?_, ?_, ?_, ?_⟩
  · exact (c1_restore_url_precedence
      { provider := "chatgpt", url := "https://chatgpt.com/c/old", zoom := some 1 } []
      [("chatgpt", "https://chatgpt.com/c/new")]).1 "https://chatgpt.com/c/new"
      (by decide) (by decide)
  · exact (c1_restore_url_precedence
      { provider := "claude", url := "https://claude.ai/chat/7", zoom := none } []
      []).2.1 (Or.inl (by decide)) (by decide)
  · exact (c1_restore_url_precedence
      { provider := "gemini", url := "", zoom := none } [] []).2.2.1
      (Or.inl (by decide)) (by decide) "https://gemini.google.com/" (by decide)
  · exact (c1_restore_url_precedence
      { provider := "zzz", url := "", zoom := none } [] []).2.2.2.1
      (Or.inl (by decide)) (by decide) (by decide)

/-- Claim C6 fails as stated: the canonical lmarena URL does not resolve to
the canonical id "lmarena"; inferProviderFromUrl has no lmarena pattern and
falls through to the bare hostname. -/
theorem c6_lmarena_counterexample :
    inferProviderFromUrl "https://lmarena.ai/?mode=direct" ≠ "lmarena"
    ∧ inferProviderFromUrl "https://lmarena.ai/?mode=direct" = "lmarena.ai" :=
  ⟨by decide, by decide⟩

/-- Claim C6 (amended): inferProviderFromUrl is a total function; URLs of
chatgpt, gemini, perplexity, claude, grok and deepseek resolve to their
canonical ids; a parsed URL matching no pattern yields its bare hostname
(so lmarena URLs yield "lmarena.ai"), and an unparseable string yields the
raw string. -/
theorem c6_infer_provider (url : String) :
    inferProviderFromUrl "https://chatgpt.com/" = "chatgpt"
    ∧ inferProviderFromUrl "https://chat.openai.com/c/1" = "chatgpt"
    ∧ inferProviderFromUrl "https://gemini.google.com/app" = "gemini"
    ∧ inferProviderFromUrl "https://www.perplexity.ai/" = "perplexity"
    ∧ inferProviderFromUrl "https://claude.ai/chats/" = "claude"
    ∧ inferProviderFromUrl "https://grok.com/" = "grok"
    ∧ inferProviderFromUrl "https://chat.deepseek.com/" = "deepseek"
    ∧ inferProviderFromUrl "https://lmarena.ai/?mode=direct" = "lmarena.ai"
    ∧ (∀ host, parseHostname url = some host →
        strContains host "chatgpt.com" = false →
        strContains host "chat.openai.com" = false →
        strContains host "gemini.google.com" = false →
        strContains host "perplexity.ai" = false →
        strContains host "claude.ai" = false →
        strContains host "grok.com" = false →
        strContains host "deepseek.com" = false →
        inferProviderFromUrl url = host)
    ∧ (parseHostname url = none → inferProviderFromUrl url = url) := by
  refine ⟨by decide, by decide, by decide, by decide, by decide, by decide, by decide,
    by decide, ?_, ?_⟩
  · intro host hparse h1 h2 h3 h4 h5 h6 h7
    rw [inferProviderFromUrl, hparse]
    simp [h1, h2, h3, h4, h5, h6, h7]
  · intro hparse
    rw [inferProviderFromUrl, hparse]

theorem c6_infer_provider_witness :
    inferProviderFromUrl "https://example.com/x" = "example.com"
    ∧ inferProviderFromUrl "not a url" = "not a url" := by
  constructor
  · exact (c6_infer_provider "https://example.com/x").2.2.2.2.2.2.2.2.1 "example.com"
      (by decide) (by decide) (by decide) (by decide) (by decide) (by decide) (by decide)
      (by decide)
  · exact (c6_infer_provider "not a url").2.2.2.2.2.2.2.2.2 (by decide)

theorem deriveSessionTitle_pos (seed fb : String) (h : 0 < (cleanTitleSeed seed).length) :
    deriveSessionTitle (some seed) fb = jsSlice (cleanTitleSeed seed) 80 := by
  unfold deriveSessionTitle
  simp only [Option.getD_some]
  rw [if_pos h]

theorem deriveSessionTitle_zero (seed fb : String) (h : (cleanTitleSeed seed).length = 0) :
    deriveSessionTitle (some seed) fb = defaultSessionTitle fb := by
  unfold deriveSessionTitle
  simp only [Option.getD_some]
  rw [if_neg (by omega)]

theorem jsSlice_of_le (s : String) (n : Nat) (h : s.length ≤ n) : jsSlice s n = s := by
  cases s with
  | mk data =>
    have hd : data.take n = data := List.take_of_length_le h
    simp [jsSlice, String.toList, hd]

/-- Claim C8: createNewSession derives the title by trimming the seed,
collapsing whitespace runs to single spaces and truncating to the first 80
characters; a non-empty cleaned seed of at most 80 characters becomes the
title verbatim (in particular the example prompt), a 120-character cleaned
seed is cut to its first 80 characters, and an empty or whitespace-only
seed falls back to the timestamp-derived title. -/
theorem c8_title_derivation (seed fb : String) :
    (0 < (cleanTitleSeed seed).length →
        deriveSessionTitle (some seed) fb = jsSlice (cleanTitleSeed seed) 80)
    ∧ (0 < (cleanTitleSeed seed).length → (cleanTitleSeed seed).length ≤ 80 →
        deriveSessionTitle (some seed) fb = cleanTitleSeed seed)
    ∧ ((cleanTitleSeed seed).length = 0 →
        deriveSessionTitle (some seed) fb = defaultSessionTitle fb)
    ∧ deriveSessionTitle (some "Explain recursion in Python, please!!") fb
        = "Explain recursion in Python, please!!"
    ∧ deriveSessionTitle (some seed120) fb = seed80
    ∧ cleanTitleSeed "  Explain   recursion  " = "Explain recursion"
    ∧ deriveSessionTitle (some "   ") fb = defaultSessionTitle fb := by
  refine ⟨deriveSessionTitle_pos seed fb, ?_, deriveSessionTitle_zero seed fb, ?_, ?_,
    by decide, ?_⟩
  · intro hpos hle
    rw [deriveSessionTitle_pos seed fb hpos]
    exact jsSlice_of_le _ _ hle
  · rw [deriveSessionTitle_pos _ _ (by decide)]
    decide
  · rw [deriveSessionTitle_pos _ _ (by decide)]
    decide
  · rw [deriveSessionTitle_zero _ _ (by decide)]

theorem c8_title_derivation_witness :
    deriveSessionTitle (some " broadcast  a   prompt ") "2026-10-11 12:00"
        = "broadcast a prompt"
    ∧ deriveSessionTitle (some "  ") "2026-10-11 12:00"
        = defaultSessionTitle "2026-10-11 12:00" := by
  constructor
  · have h := (c8_title_derivation " broadcast  a   prompt " "2026-10-11 12:00").2.1
      (by decide) (by decide)
    rw [h]
    decide
  · exact (c8_title_derivation "  " "2026-10-11 12:00").2.2.1 (by decide)

theorem runPaneOps_count (ops : List PaneOp) : ∀ s : PaneState,
    (runPaneOps s ops).views.length + countEffectiveCloses s ops
      = s.views.length + countOpens ops := by
  induction ops with
  | nil =>
    intro s
    simp [runPaneOps, countEffectiveCloses, countOpens]
  | cons op rest ih =>
    intro s
    cases op with
    | openPane url =>
      have h := ih (addBrowserView s url)
      have hlen : (addBrowserView s url).views.length = s.views.length + 1 := by
        simp [addBrowserView]
      simp only [runPaneOps, countEffectiveCloses, countOpens] at h ⊢
      omega
    | closePane t =>
      by_cases ht : t ∈ s.views
      · have h := ih (removeBrowserView s t)
        have hpos : 0 < s.views.length := List.length_pos_of_mem ht
        have hlen : (removeBrowserView s t).views.length = s.views.length - 1 := by
          rw [removeBrowserView, if_pos ht]
          exact List.length_erase_of_mem ht
        simp only [runPaneOps, countEffectiveCloses, countOpens, if_pos ht] at h ⊢
        omega
      · have h := ih (removeBrowserView s t)
        have hrm : removeBrowserView s t = s := by
          rw [removeBrowserView, if_neg ht]
        simp only [runPaneOps, countEffectiveCloses, countOpens, if_neg ht, hrm] at h ⊢
        omega

/-- Claim C7: over any sequence of pane open/close operations, the final
live-pane count plus the number of closes that targeted a tracked pane
equals the initial count plus the number of opens (so effective closes
never outnumber opens plus initial panes and the count never goes
negative), and a close whose target is untracked changes neither the view
list nor the websites list. -/
theorem c7_pane_count (s : PaneState) (ops : List PaneOp) :
    ((runPaneOps s ops).views.length + countEffectiveCloses s ops
        = s.views.length + countOpens ops)
    ∧ countEffectiveCloses s ops ≤ s.views.length + countOpens ops
    ∧ (∀ t, t ∉ s.views → removeBrowserView s t = s) := by
  refine ⟨runPaneOps_count ops s, ?_, ?_⟩
  · have h := runPaneOps_count ops s
    omega
  · intro t ht
    rw [removeBrowserView, if_neg ht]

theorem c7_pane_count_witness :
    ((runPaneOps paneS0 paneOps0).views.length + countEffectiveCloses paneS0 paneOps0
        = paneS0.views.length + countOpens paneOps0)
    ∧ removeBrowserView paneS0 (5, { id := "x", url := "" }) = paneS0 := by
  refine ⟨(c7_pane_count paneS0 paneOps0).1, ?_⟩
  exact (c7_pane_count paneS0 paneOps0).2.2 (5, { id := "x", url := "" }) (by decide)

theorem updateLastUrls_cons (init : List (String × String)) (t : TabState)
    (rest : List TabState) :
    updateLastUrls init (t :: rest)
      = updateLastUrls (if t.provider ≠ "" then recSet init t.provider t.url else init) rest :=
  rfl

theorem updateLastUrls_miss (current : List TabState) :
    ∀ (init : List (String × String)) (p : String), lastCurrentUrl current p = none →
      recGet (updateLastUrls init current) p = recGet init p := by
  induction current with
  | nil =>
    intro init p h
    rfl
  | cons t rest ih =>
    intro init p h
    cases hrest : lastCurrentUrl rest p with
    | some u =>
      rw [lastCurrentUrl, hrest] at h
      cases h
    | none =>
      rw [lastCurrentUrl, hrest] at h
      have htp : t.provider ≠ p := by
        intro heq
        rw [if_pos heq] at h
        cases h
      rw [updateLastUrls_cons]
      rw [ih _ p hrest]
      by_cases hz : t.provider ≠ ""
      · rw [if_pos hz]
        exact recGet_recSet_ne _ _ _ _ (fun hk => htp hk.symm)
      · rw [if_neg hz]

theorem updateLastUrls_hit (current : List TabState) :
    ∀ (init : List (String × String)) (p u : String), p ≠ "" →
      lastCurrentUrl current p = some u →
      recGet (updateLastUrls init current) p = some u := by
  induction current with
  | nil =>
    intro init p u _ h
    cases h
  | cons t rest ih =>
    intro init p u hp h
    cases hrest : lastCurrentUrl rest p with
    | some w =>
      rw [lastCurrentUrl, hrest] at h
      have hw : w = u := by
        injection h
      rw [updateLastUrls_cons]
      exact ih _ p u hp (by rw [hrest, hw])
    | none =>
      rw [lastCurrentUrl, hrest] at h
      have htp : t.provider = p := by
        by_cases heq : t.provider = p
        · exact heq
        · rw [if_neg heq] at h
          cases h
      rw [if_pos htp] at h
      have hu : t.url = u := by
        injection h
      rw [updateLastUrls_cons, if_pos (by rw [htp]; exact hp)]
      rw [updateLastUrls_miss rest _ p hrest, htp, hu]
      exact recGet_recSet_self _ _ _

theorem mergedTab_provider (prevTabs : List TabState) (t : TabState) :
    (mergedTab prevTabs t).provider = t.provider := by
  unfold mergedTab
  cases lookupLastTab prevTabs t.provider with
  | none => rfl
  | some prev => rfl

theorem mergedTab_url_prev (prevTabs : List TabState) (t prev : TabState)
    (h : lookupLastTab prevTabs t.provider = some prev) :
    (mergedTab prevTabs t).url = prev.url := by
  unfold mergedTab
  rw [h]

theorem mergedTab_url_base (prevTabs : List TabState) (t : TabState) (b : String)
    (h : lookupLastTab prevTabs t.provider = none)
    (hb : recGet PROVIDER_BASE_URL t.provider = some b) :
    (mergedTab prevTabs t).url = b := by
  unfold mergedTab
  rw [h]
  simp [jsOrStr, hb, provider_base_url_nonempty _ _ hb]

theorem mergedTab_url_live (prevTabs : List TabState) (t : TabState)
    (h : lookupLastTab prevTabs t.provider = none)
    (hb : recGet PROVIDER_BASE_URL t.provider = none) :
    (mergedTab prevTabs t).url = t.url := by
  unfold mergedTab
  rw [h]
  simp [jsOrStr, hb]

theorem saveActiveLayoutSnapshot_spec (state : SessionState) (panes : List Pane) (now : Nat)
    (aid : String) (hact : state.activeId = some aid) :
    saveActiveLayoutSnapshot state panes now
      = { state with
          layouts := recSet state.layouts aid
            { tabs := (getCurrentTabsSnapshot panes).map
                (mergedTab ((recGet state.layouts aid).getD
                    { tabs := [], lastUrlByProvider := [] }).tabs),
              lastUrlByProvider := updateLastUrls
                ((recGet state.layouts aid).getD
                    { tabs := [], lastUrlByProvider := [] }).lastUrlByProvider
                (getCurrentTabsSnapshot panes) },
          items :=
            match recGet state.items aid with
            | some m => recSet state.items aid { m with updatedAt := now }
            | none => state.items } := by
  rw [saveActiveLayoutSnapshot, hact]

/-- Claim C2 fails as stated: with two live panes of the same provider,
`lastUrlByProvider[provider]` after the save cannot equal both panes'
current URLs — the first chatgpt pane's URL is not the recorded one. -/
theorem c2_duplicate_provider_counterexample :
    ¬ (∀ t ∈ getCurrentTabsSnapshot dupPanes,
        (recGet (saveActiveLayoutSnapshot sampleState dupPanes 5).layouts "s1").map
            (fun L => recGet L.lastUrlByProvider t.provider)
          = some (some t.url)) := by decide

/-- Claim C2 (amended): saveActiveLayoutSnapshot is a no-op when no session
is active; otherwise every merged tab whose provider occurred in the
previously saved tab list keeps the previously saved URL (of the last such
saved tab) instead of the pane's current URL, `lastUrlByProvider[p]` after
the save equals the current URL of the last live pane with provider `p`
for every non-empty provider `p` present in the panes, and the active
session's `updatedAt` is bumped to the save time when its metadata entry
exists. -/
theorem c2_save_snapshot_merge (state : SessionState) (panes : List Pane) (now : Nat) :
    (state.activeId = none → saveActiveLayoutSnapshot state panes now = state)
    ∧ (∀ aid, state.activeId = some aid →
        ∃ L, recGet (saveActiveLayoutSnapshot state panes now).layouts aid = some L
          ∧ (∀ tb ∈ L.tabs, ∀ prev,
              lookupLastTab ((recGet state.layouts aid).getD
                  { tabs := [], lastUrlByProvider := [] }).tabs tb.provider = some prev →
              tb.url = prev.url)
          ∧ (∀ p u, p ≠ "" →
              lastCurrentUrl (getCurrentTabsSnapshot panes) p = some u →
              recGet L.lastUrlByProvider p = some u)
          ∧ (∀ m, recGet state.items aid = some m →
              recGet (saveActiveLayoutSnapshot state panes now).items aid
                = some { m with updatedAt := now })) := by
  constructor
  · intro h
    rw [saveActiveLayoutSnapshot, h]
  · intro aid hact
    rw [saveActiveLayoutSnapshot_spec state panes now aid hact]
    refine ⟨_, recGet_recSet_self _ _ _, ?_, ?_, ?_⟩
    · intro tb htb prev hprev
      rcases List.mem_map.mp htb with ⟨cur, hcur, rfl⟩
      rw [mergedTab_provider] at hprev
      exact mergedTab_url_prev _ _ _ hprev
    · intro p u hp hu
      exact updateLastUrls_hit _ _ p u hp hu
    · intro m hm
      show recGet (match recGet state.items aid with
        | some m => recSet state.items aid { m with updatedAt := now }
        | none => state.items) aid = some { m with updatedAt := now }
      rw [hm]
      exact recGet_recSet_self _ _ _

theorem c2_save_snapshot_merge_witness :
    (saveActiveLayoutSnapshot { sampleState with activeId := none } dupPanes 5
        = { sampleState with activeId := none })
    ∧ (∃ L, recGet (saveActiveLayoutSnapshot sampleState dupPanes 5).layouts "s1" = some L
        ∧ recGet L.lastUrlByProvider "chatgpt" = some "https://chatgpt.com/c/2")
    ∧ recGet (saveActiveLayoutSnapshot sampleState dupPanes 5).items "s1"
        = some { sampleMeta with updatedAt := 5 } := by
  refine ⟨(c2_save_snapshot_merge { sampleState with activeId := none } dupPanes 5).1 rfl,
    ?_, ?_⟩
  · obtain ⟨L, hL, -, hlast, -⟩ :=
      (c2_save_snapshot_merge sampleState dupPanes 5).2 "s1" rfl
    exact ⟨L, hL, hlast "chatgpt" "https://chatgpt.com/c/2" (by decide) (by decide)⟩
  · obtain ⟨L, -, -, -, hitems⟩ :=
      (c2_save_snapshot_merge sampleState dupPanes 5).2 "s1" rfl
    exact hitems sampleMeta (by decide)

/-- Claim C10 fails as stated: a live pane whose inferred provider is the
empty string is skipped by the `if (t.provider)` guard, so its URL is not
recorded in lastUrlByProvider at all. -/
theorem c10_empty_provider_counterexample :
    ¬ (∀ t ∈ getCurrentTabsSnapshot emptyPanes,
        lookupLastTab sampleLayout.tabs t.provider = none →
        (recGet (saveActiveLayoutSnapshot sampleState emptyPanes 5).layouts "s1").map
            (fun L => recGet L.lastUrlByProvider t.provider)
          = some (some t.url)) := by decide

/-- Claim C10 (amended): in saveActiveLayoutSnapshot, a live pane whose
provider is absent from the previously saved tab list gets the provider's
registered base URL written as its saved tab URL when one exists, and the
pane's current URL only when no base URL is registered; the current URL of
the last live pane with each non-empty provider is recorded in
lastUrlByProvider. -/
theorem c10_new_provider_base_url (state : SessionState) (panes : List Pane) (now : Nat)
    (aid : String) (hact : state.activeId = some aid) :
    ∃ L, recGet (saveActiveLayoutSnapshot state panes now).layouts aid = some L
      ∧ L.tabs = (getCurrentTabsSnapshot panes).map
          (mergedTab ((recGet state.layouts aid).getD
              { tabs := [], lastUrlByProvider := [] }).tabs)
      ∧ (∀ cur : TabState,
          lookupLastTab ((recGet state.layouts aid).getD
              { tabs := [], lastUrlByProvider := [] }).tabs cur.provider = none →
          (∀ b, recGet PROVIDER_BASE_URL cur.provider = some b →
            (mergedTab ((recGet state.layouts aid).getD
                { tabs := [], lastUrlByProvider := [] }).tabs cur).url = b)
          ∧ (recGet PROVIDER_BASE_URL cur.provider = none →
            (mergedTab ((recGet state.layouts aid).getD
                { tabs := [], lastUrlByProvider := [] }).tabs cur).url = cur.url))
      ∧ (∀ p u, p ≠ "" →
          lastCurrentUrl (getCurrentTabsSnapshot panes) p = some u →
          recGet L.lastUrlByProvider p = some u) := by
  rw [saveActiveLayoutSnapshot_spec state panes now aid hact]
  refine ⟨_, recGet_recSet_self _ _ _, rfl, ?_, ?_⟩
  · intro cur hnone
    exact ⟨fun b hb => mergedTab_url_base _ _ b hnone hb,
      fun hb => mergedTab_url_live _ _ hnone hb⟩
  · intro p u hp hu
    exact updateLastUrls_hit _ _ p u hp hu

theorem c10_new_provider_base_url_witness :
    ∃ L, recGet (saveActiveLayoutSnapshot sampleState claudePanes 5).layouts "s1" = some L
      ∧ L.tabs = (getCurrentTabsSnapshot claudePanes).map (mergedTab sampleLayout.tabs)
      ∧ (mergedTab sampleLayout.tabs
          { provider := "claude", url := "https://claude.ai/chat/42", zoom := some 1 }).url
        = "https://claude.ai/chats/"
      ∧ recGet L.lastUrlByProvider "claude" = some "https://claude.ai/chat/42" := by
  obtain ⟨L, hL, htabs, hbase, hlast⟩ :=
    c10_new_provider_base_url sampleState claudePanes 5 "s1" rfl
  refine ⟨L, hL, ?_, ?_, ?_⟩
  · rw [htabs]
    rfl
  · exact (hbase { provider := "claude", url := "https://claude.ai/chat/42", zoom := some 1 }
      (by decide)).1 "https://claude.ai/chats/" (by decide)
  · exact hlast "claude" "https://claude.ai/chat/42" (by decide) (by decide)

theorem snapshot_restore (tabs : List TabState) (last : List (String × String)) :
    getCurrentTabsSnapshot (restoreLayoutPanes tabs last)
      = tabs.map (fun t =>
          { provider := inferProviderFromUrl (resolveRestoreUrl t last),
            url := resolveRestoreUrl t last, zoom := some 1 }) := by
  unfold getCurrentTabsSnapshot restoreLayoutPanes
  rw [List.map_map]
  rfl

theorem infer_empty_url : inferProviderFromUrl "" = "" := by decide

theorem base_url_no_empty_provider : recGet PROVIDER_BASE_URL "" = none := by decide

theorem roundtrip_provider (t : TabState) (last : List (String × String))
    (hcoh : ∀ p v, recGet last p = some v → 0 < v.length → inferProviderFromUrl v = p) :
    inferProviderFromUrl (resolveRestoreUrl
        { provider := inferProviderFromUrl (resolveRestoreUrl t last),
          url := resolveRestoreUrl t last, zoom := some 1 } last)
      = inferProviderFromUrl (resolveRestoreUrl t last) := by
  set u := resolveRestoreUrl t last with hu
  set p := inferProviderFromUrl u with hp
  cases hl : recGet last p with
  | some v =>
    by_cases hv : 0 < v.length
    · have hres : resolveRestoreUrl { provider := p, url := u, zoom := some 1 } last = v := by
        rw [resolveRestoreUrl]
        show (match recGet last p with
          | some l =>
            if 0 < l.length then l
            else if 0 < u.length then u
            else jsOrStr (recGet PROVIDER_BASE_URL p) u
          | none =>
            if 0 < u.length then u
            else jsOrStr (recGet PROVIDER_BASE_URL p) u) = v
        rw [hl]
        simp [hv]
      rw [hres]
      exact hcoh p v hl hv
    · have hres : resolveRestoreUrl { provider := p, url := u, zoom := some 1 } last
          = if 0 < u.length then u else jsOrStr (recGet PROVIDER_BASE_URL p) u := by
        rw [resolveRestoreUrl]
        show (match recGet last p with
          | some l =>
            if 0 < l.length then l
            else if 0 < u.length then u
            else jsOrStr (recGet PROVIDER_BASE_URL p) u
          | none =>
            if 0 < u.length then u
            else jsOrStr (recGet PROVIDER_BASE_URL p) u) = _
        rw [hl]
        simp [hv]
      by_cases hu0 : 0 < u.length
      · rw [hres, if_pos hu0]
      · have hue : u = "" := by
          rw [string_eq_empty_iff_length]
          omega
        have hpe : p = "" := by
          rw [hp, hue]
          exact infer_empty_url
        rw [hres, if_neg hu0, hpe, base_url_no_empty_provider]
        rw [hue]
        decide
  | none =>
    have hres : resolveRestoreUrl { provider := p, url := u, zoom := some 1 } last
        = if 0 < u.length then u else jsOrStr (recGet PROVIDER_BASE_URL p) u := by
      rw [resolveRestoreUrl]
      show (match recGet last p with
        | some l =>
          if 0 < l.length then l
          else if 0 < u.length then u
          else jsOrStr (recGet PROVIDER_BASE_URL p) u
        | none =>
          if 0 < u.length then u
          else jsOrStr (recGet PROVIDER_BASE_URL p) u) = _
      rw [hl]
    by_cases hu0 : 0 < u.length
    · rw [hres, if_pos hu0]
    · have hue : u = "" := by
        rw [string_eq_empty_iff_length]
        omega
      have hpe : p = "" := by
        rw [hp, hue]
        exact infer_empty_url
      rw [hres, if_neg hu0, hpe, base_url_no_empty_provider]
      rw [hue]
      decide

/-- Claim C3 fails as stated: restoring, snapshotting and restoring again
with the unchanged map changes the provider sequence from [claude] to
[grok], because the map's claude entry resolves to a grok URL. -/
theorem c3_roundtrip_counterexample :
    paneProviders (restoreLayoutPanes
        (getCurrentTabsSnapshot (restoreLayoutPanes mismatchTabs mismatchLast)) mismatchLast)
      ≠ paneProviders (restoreLayoutPanes mismatchTabs mismatchLast) := by decide

/-- Claim C3 (amended): when every non-empty entry of lastUrlByProvider maps
a provider key to a URL that infers back to that key (which is true of
every map the program itself writes), restoreLayout followed by a snapshot
and a second restoreLayout with that snapshot and the unchanged map yields
panes with the same provider sequence, in the same order. -/
theorem c3_restore_roundtrip (tabs : List TabState) (last : List (String × String))
    (hcoh : ∀ p v, recGet last p = some v → 0 < v.length → inferProviderFromUrl v = p) :
    paneProviders (restoreLayoutPanes
        (getCurrentTabsSnapshot (restoreLayoutPanes tabs last)) last)
      = paneProviders (restoreLayoutPanes tabs last) := by
  unfold paneProviders
  rw [snapshot_restore, snapshot_restore, List.map_map, List.map_map, List.map_map]
  refine List.map_congr_left ?_
  intro t _
  exact roundtrip_provider t last hcoh

theorem c3_restore_roundtrip_witness :
    paneProviders (restoreLayoutPanes
        (getCurrentTabsSnapshot (restoreLayoutPanes roundtripTabs roundtripLast)) roundtripLast)
      = paneProviders (restoreLayoutPanes roundtripTabs roundtripLast) := by
  apply c3_restore_roundtrip
  intro p v h hv
  have hm := recGet_mem h
  simp only [roundtripLast, List.mem_singleton, Prod.mk.injEq] at hm
  obtain ⟨rfl, rfl⟩ := hm
  decide
